import Mathlib

/-!
Verification development for the convoy C++ annotation parser
(`src/codegen/cpp/parser.py`).

The development shallowly embeds the parser in Lean 4.  Python strings are
modelled as `List Char` (`PyStr`).  Python's process-terminating
`Convoy.exit_error` is modelled as the `Err.fatal` constructor of an
`Except`-style result; an uncaught Python `IndexError` is `Err.indexError`;
the unbounded recursion of the parent resolver is modelled with a fuel
parameter whose exhaustion is `Err.outOfFuel`.

Mutable Python objects that are shared by reference (the `FieldCollection`
inside each `Class`, which the final inheritance-merge pass mutates in
place) are modelled with an explicit store: a `Class` holds a `fieldsRef`
index into a list of `FieldCollection`s, and all state is threaded
explicitly.

The regular expressions of the source are embedded as first-order `RE`
values run by a small backtracking engine (`vmRun`), which explores
alternatives in the same depth-first priority order Python's `re` engine
uses (greedy quantifiers longest-first, lazy shortest-first, leftmost
alternative first, `match.group(k)` = last write of group `k`).
-/

namespace CPP

/-- Python strings, as lists of characters. -/
abbrev PyStr := List Char

/-- `for`-loop folds with positional arguments (list, start, body). -/
def pyFoldM {m : Type → Type} [Monad m] {α σ : Type} (l : List α) (start : σ)
    (f : σ → α → m σ) : m σ := l.foldlM f start

/-- Pure `for`-loop fold with positional arguments (list, start, body). -/
def pyFold {α σ : Type} (l : List α) (start : σ) (f : σ → α → σ) : σ :=
  l.foldl f start

/-- Convert a Lean string literal to a `PyStr`. -/
def str (s : String) : PyStr := s.data

/-- The error outcomes of the embedded parser: `fatal` models
`Convoy.exit_error` (which aborts the whole run), `indexError` models an
uncaught Python `IndexError`, and `outOfFuel` is the fuel-model stand-in
for unbounded recursion (Python's eventual `RecursionError`). -/
inductive Err where
  | fatal (msg : PyStr)
  | indexError
  | outOfFuel
deriving DecidableEq, Repr

/-- Result type of all fallible embedded operations. -/
abbrev Res (α : Type) := Except Err α

instance {ε α : Type} [DecidableEq ε] [DecidableEq α] : DecidableEq (Except ε α) :=
  fun x y =>
    match x, y with
    | .ok a, .ok b =>
      if h : a = b then isTrue (by rw [h])
      else isFalse (fun hh => h (Except.ok.inj hh))
    | .error a, .error b =>
      if h : a = b then isTrue (by rw [h])
      else isFalse (fun hh => h (Except.error.inj hh))
    | .ok _, .error _ => isFalse (fun hh => Except.noConfusion hh)
    | .error _, .ok _ => isFalse (fun hh => Except.noConfusion hh)

/-- Python `\w` (`[a-zA-Z0-9_]`). -/
def isWordChar (c : Char) : Bool :=
  (c ≥ 'a' && c ≤ 'z') || (c ≥ 'A' && c ≤ 'Z') || (c ≥ '0' && c ≤ '9') || c = '_'

/-- Python `\s` (`str.strip` whitespace set). -/
def pyIsSpace (c : Char) : Bool :=
  c = ' ' || c = '\t' || c = '\n' || c = '\r' || c = '\x0b' || c = '\x0c'

/-- Python `s.lstrip()` restricted to a character predicate. -/
def pyLStripP (p : Char → Bool) (s : PyStr) : PyStr := s.dropWhile p

/-- Python `s.rstrip()` restricted to a character predicate. -/
def pyRStripP (p : Char → Bool) (s : PyStr) : PyStr :=
  (s.reverse.dropWhile p).reverse

/-- Python `s.strip()` restricted to a character predicate. -/
def pyStripP (p : Char → Bool) (s : PyStr) : PyStr :=
  pyRStripP p (pyLStripP p s)

/-- Python `s.strip()`. -/
def pyStrip (s : PyStr) : PyStr := pyStripP pyIsSpace s

/-- Python `s.strip(chars)` for a one-character argument. -/
def pyStripChar (c : Char) (s : PyStr) : PyStr := pyStripP (· = c) s

/-- Python `needle in hay` (substring containment). -/
def containsSub (needle hay : PyStr) : Bool :=
  match hay with
  | [] => needle.isPrefixOf []
  | _ :: t => needle.isPrefixOf hay || containsSub needle t

/-- Python `s.endswith(t)`. -/
def pyEndsWith (t s : PyStr) : Bool := t.reverse.isPrefixOf s.reverse

/-!  The scanning helpers below consume at least one character per step.
They are written with an explicit fuel argument (initialised to the input
length) so that they are structurally recursive and therefore reduce
inside the kernel; the fuel can never run out. -/

/-- Python `s.count(sub)` for a nonempty `sub` (non-overlapping count). -/
def pyCountSubF (sub : PyStr) : Nat → PyStr → Nat
  | 0, _ => 0
  | _ + 1, [] => 0
  | f + 1, c :: t =>
    if sub.isPrefixOf (c :: t) && !sub.isEmpty then
      1 + pyCountSubF sub f (t.drop (sub.length - 1))
    else pyCountSubF sub f t

/-- Python `s.count(sub)` for a nonempty `sub`. -/
def pyCountSub (sub s : PyStr) : Nat := pyCountSubF sub s.length s

/-- Python `s.replace(old, new)` for a nonempty `old`:
leftmost, non-overlapping. -/
def pyReplaceF (old new : PyStr) : Nat → PyStr → PyStr
  | 0, s => s
  | _ + 1, [] => []
  | f + 1, c :: t =>
    if old.isPrefixOf (c :: t) && !old.isEmpty then
      new ++ pyReplaceF old new f (t.drop (old.length - 1))
    else c :: pyReplaceF old new f t

/-- Python `s.replace(old, new)` for a nonempty `old`. -/
def pyReplace (old new s : PyStr) : PyStr := pyReplaceF old new s.length s

/-- Python `s.split(sep)` for a nonempty separator substring
(keeps empty pieces, `"" → [""]`). -/
def pySplitSubF (sep : PyStr) : Nat → PyStr → List PyStr
  | 0, s => [s]
  | _ + 1, [] => [[]]
  | f + 1, c :: t =>
    if sep.isPrefixOf (c :: t) && !sep.isEmpty then
      [] :: pySplitSubF sep f (t.drop (sep.length - 1))
    else
      match pySplitSubF sep f t with
      | [] => [[c]]
      | h :: r => (c :: h) :: r

/-- Python `s.split(sep)` for a nonempty separator. -/
def pySplitSub (sep s : PyStr) : List PyStr := pySplitSubF sep s.length s

/-- Python `s.split(sep, maxsplit)` for a nonempty separator. -/
def pySplitSubNF (sep : PyStr) : Nat → Nat → PyStr → List PyStr
  | 0, _, s => [s]
  | _ + 1, _, [] => [[]]
  | _ + 1, 0, s => [s]
  | f + 1, m + 1, c :: t =>
    if sep.isPrefixOf (c :: t) && !sep.isEmpty then
      [] :: pySplitSubNF sep f m (t.drop (sep.length - 1))
    else
      match pySplitSubNF sep f (m + 1) t with
      | [] => [[c]]
      | h :: r => (c :: h) :: r

/-- Python `s.split(sep, maxsplit)` for a nonempty separator. -/
def pySplitSubN (sep : PyStr) (n : Nat) (s : PyStr) : List PyStr :=
  pySplitSubNF sep s.length n s

/-- Python `s.rsplit(" ", 1)[-1]`: the part after the last space
(the whole string when no space occurs). -/
def pyAfterLastSpace (s : PyStr) : PyStr :=
  (s.reverse.takeWhile (· ≠ ' ')).reverse

/-- Python `sep.join(xs)`. -/
def pyJoin (sep : PyStr) (xs : List PyStr) : PyStr := List.intercalate sep xs

/-- `re.sub(rf"\b{t1}\b", t2, s)` for a `t1` made of word characters:
replace each whole-word occurrence of `t1` in `s` by `t2`.  (In the source
`t1` is always a template-parameter name, hence word characters only.) -/
def wholeWordSub (t1 t2 s : PyStr) : PyStr :=
  go s.length none s
where
  /-- `prev` is the character preceding the current scan position (for the
  left word boundary); the right boundary looks at the character after the
  candidate occurrence.  Fuel = input length (cannot run out). -/
  go : Nat → Option Char → PyStr → PyStr
    | 0, _, s => s
    | _ + 1, _, [] => []
    | f + 1, prev, c :: t =>
      if t1.isPrefixOf (c :: t) && !t1.isEmpty &&
          (match prev with | some p => !isWordChar p | none => true) &&
          (match (t.drop (t1.length - 1)).head? with
           | some nx => !isWordChar nx
           | none => true) then
        t2 ++ go f (some ((c :: t).getD (t1.length - 1) c)) (t.drop (t1.length - 1))
      else
        c :: go f (some c) t

/-- Modelled from the spec: `Convoy.nested_split` from the `convoy`
support module, which is not under `src/`.  The spec describes it as
"nesting-aware comma splitting (so `Foo<A,B>` is one parent)":
split `s` at each occurrence of the (single-character) delimiter that is
at bracket-nesting depth zero with respect to `opener`/`closer`,
performing at most `n` splits when `n` is given. -/
def nestedSplit (s : PyStr) (delim opener closer : Char) (n : Option Nat) : List PyStr :=
  (go s 0 n []).map List.reverse
where
  go : PyStr → Nat → Option Nat → List Char → List PyStr
    | [], _, _, acc => [acc]
    | c :: t, depth, lim, acc =>
      if c = delim ∧ depth = 0 ∧ lim ≠ some 0 then
        match go t depth (lim.map (· - 1)) [] with
        | res => acc :: res
      else
        let depth' := if c = opener then depth + 1
          else if c = closer then depth - 1 else depth
        go t depth' lim (c :: acc)

/-! ## A small backtracking regex engine

Models Python's `re.match` for the two fixed patterns of the source
(`__class_pattern`, `__field_pattern`).  Patterns are first-order `RE`
values run by a backtracking virtual machine (`vmRun`) that explores
alternatives in the same depth-first priority order Python's engine uses:
greedy quantifiers longest first, lazy ones shortest first, leftmost
alternative first; a capture group stores its most recent (= last) span.
The VM keeps an explicit stack of pending continuations and a stack of
untried alternatives, so it is structurally recursive on a step-count
fuel (chosen far larger than any run here needs). -/

/-- The character classes used by the source's patterns. -/
inductive CClass where
  | dot        -- `.` (anything but a newline; no DOTALL)
  | word       -- `\w`
  | space      -- `\s`
  | wordSpace  -- `[\w\s]`
  | notParen   -- `[^\(\)]`
  | ampStar    -- `[&\*]`
deriving DecidableEq, Repr

/-- Membership in a character class. -/
def inClass : CClass → Char → Bool
  | .dot, c => c ≠ '\n'
  | .word, c => isWordChar c
  | .space, c => pyIsSpace c
  | .wordSpace, c => isWordChar c || pyIsSpace c
  | .notParen, c => c ≠ '(' && c ≠ ')'
  | .ampStar, c => c = '&' || c = '*'

/-- Regular-expression syntax (only the constructs the source uses). -/
inductive RE where
  | eps
  | lit (s : PyStr)
  | cls (c : CClass)
  | seq (a b : RE)
  | alt (a b : RE)          -- `a|b`, left first
  | opt (a : RE)            -- greedy `a?`
  | star (a : RE)           -- greedy `a*`
  | starL (a : RE)          -- lazy `a*?`
  | cap (g : Nat) (a : RE)  -- capture group `g`
  | negLA (a : RE)          -- `(?!a)`
  | wordB                   -- `\b`
  | atStart                 -- `^` (no MULTILINE)
deriving DecidableEq, Repr

/-- `a+` (greedy). -/
def RE.plus (a : RE) : RE := .seq a (.star a)

/-- Sequence a list of `RE`s. -/
def reCat (rs : List RE) : RE := rs.foldr RE.seq .eps

/-- VM state: `prev` is the last consumed character (`none` iff nothing
has been consumed yet; used for word boundaries and `^`), `right` the
remaining input, `caps` the capture-group writes (most recent first),
already as text.  No positional counters are kept: every component stays
in evaluated (constructor) form, which keeps kernel reduction linear. -/
structure VmSt where
  prev : Option Char
  right : PyStr
  caps : List (Nat × PyStr)
deriving DecidableEq, Repr

/-- Pending-work items of the VM.  `kend g rstart` closes capture group
`g` opened when the remaining input was `rstart`; `kstar`/`kstarL` carry
the length of the remaining input at the start of the current quantifier
iteration (for the progress check). -/
inductive K where
  | kre (r : RE)
  | kend (g : Nat) (rstart : PyStr)
  | kstar (r : RE) (entry : Nat)
  | kstarL (r : RE) (entry : Nat)
deriving DecidableEq, Repr

/-- One backtracking alternative: a saved state with its pending work. -/
abbrev Alt := VmSt × List K

/-- Consume a literal from the remaining input (charwise, so the result
is a structural suffix). -/
def litConsume : PyStr → PyStr → Option PyStr
  | [], r => some r
  | _ :: _, [] => none
  | c :: cs, rc :: rt => if rc = c then litConsume cs rt else none

mutual

/-- The backtracking VM.  Returns the first successful final state in
priority order.  `alts` is the stack of untried alternatives (highest
priority on top).  Fuel is structural; every step decrements it, and all
uses supply far more fuel than the run needs. -/
def vmRun : Nat → List Alt → VmSt → List K → Option VmSt
  | 0, _, _, _ => none
  | _ + 1, _, st, [] => some st
  | f + 1, alts, st, k :: ks =>
    match k with
    | .kend g rstart =>
      vmRun f alts
        ⟨st.prev, st.right,
         (g, rstart.take (rstart.length - st.right.length)) :: st.caps⟩ ks
    | .kstar r entry =>
      if st.right.length < entry then
        -- the iteration consumed input: greedily try another one,
        -- keeping "stop here" as the fallback
        vmRun f ((st, ks) :: alts) st (.kre r :: .kstar r st.right.length :: ks)
      else
        -- empty iteration: stop repeating (Python does not repeat an
        -- empty match)
        vmRun f alts st ks
    | .kstarL r entry =>
      if st.right.length < entry then
        -- lazily prefer stopping; "iterate once more" is the fallback
        vmRun f ((st, .kre r :: .kstarL r st.right.length :: ks) :: alts) st ks
      else
        vmRun f alts st ks
    | .kre r =>
      match r with
      | .eps => vmRun f alts st ks
      | .lit l =>
        match litConsume l st.right with
        | some rest =>
          vmRun f alts
            ⟨(match l.getLast? with | some c => some c | none => st.prev),
             rest, st.caps⟩ ks
        | none => vmFail f alts
      | .cls cc =>
        match st.right with
        | [] => vmFail f alts
        | c :: t =>
          if inClass cc c then vmRun f alts ⟨some c, t, st.caps⟩ ks
          else vmFail f alts
      | .seq a b => vmRun f alts st (.kre a :: .kre b :: ks)
      | .alt a b => vmRun f ((st, .kre b :: ks) :: alts) st (.kre a :: ks)
      | .opt a => vmRun f ((st, ks) :: alts) st (.kre a :: ks)
      | .star a => vmRun f ((st, ks) :: alts) st (.kre a :: .kstar a st.right.length :: ks)
      | .starL a => vmRun f ((st, .kre a :: .kstarL a st.right.length :: ks) :: alts) st ks
      | .cap g a => vmRun f alts st (.kre a :: .kend g st.right :: ks)
      | .negLA a =>
        match vmRun f [] st [.kre a] with
        | some _ => vmFail f alts
        | none => vmRun f alts st ks
      | .wordB =>
        let lw := match st.prev with | some c => isWordChar c | none => false
        let rw := match st.right.head? with | some c => isWordChar c | none => false
        if lw != rw then vmRun f alts st ks else vmFail f alts
      | .atStart => if st.prev.isNone then vmRun f alts st ks else vmFail f alts

/-- Backtrack: resume the highest-priority untried alternative. -/
def vmFail : Nat → List Alt → Option VmSt
  | 0, _ => none
  | _ + 1, [] => none
  | f + 1, (st, ks) :: rest => vmRun f rest st ks
end

/-- Step-count fuel for the VM; the concrete runs in this file use a few
thousand steps at most. -/
def vmFuel : Nat := 1000000

/-- `re.match(pattern, s)`: anchored prefix match; returns the capture
list of the first (highest-priority) match, or `none`. -/
def runMatch (r : RE) (s : PyStr) : Option (List (Nat × PyStr)) :=
  (vmRun vmFuel [] ⟨none, s, []⟩ [.kre r]).map (·.caps)

/-- `match.group(k)`: `none` when the group never participated. -/
def capGet (caps : List (Nat × PyStr)) (k : Nat) : Option PyStr :=
  (caps.find? (·.1 == k)).map (·.2)

/-- `(?:<.*>)` with greedy `.*`. -/
def angleGreedy : RE := reCat [.lit (str "<"), .star (.cls .dot), .lit (str ">")]

/-- `(?:\w+(?:<.*>)?::)` — one `::`-qualifier segment. -/
def qualPart : RE := reCat [RE.plus (.cls .word), .opt angleGreedy, .lit (str "::")]

/-- `(?:\w+(?:<.*>)?::)*\w+(?:<.*>)?` — a possibly qualified name with
optional template arguments. -/
def qualName : RE := reCat [.star qualPart, RE.plus (.cls .word), .opt angleGreedy]

/-- `CPParser.__class_pattern` (source lines 263–273):
```
(?:template\s*<([^\(\)]*)>\s*)*
(?:class|struct)\s+
(?:alignas\s*\(.+\)\s*)*
(?:[\w\s]*\b)?
((?:\w+(?:<.*>)?::)*\w+(?:<.*>)?)\s*
(?::\s*(.+))?
```
Group 1 = raw template-parameter list, group 2 = qualified name,
group 3 = inheritance clause. -/
def classPat : RE := reCat [
  .star (reCat [.lit (str "template"), .star (.cls .space), .lit (str "<"),
    .cap 1 (.star (.cls .notParen)), .lit (str ">"), .star (.cls .space)]),
  .alt (.lit (str "class")) (.lit (str "struct")), RE.plus (.cls .space),
  .star (reCat [.lit (str "alignas"), .star (.cls .space), .lit (str "("),
    RE.plus (.cls .dot), .lit (str ")"), .star (.cls .space)]),
  .opt (reCat [.star (.cls .wordSpace), .wordB]),
  .cap 2 qualName, .star (.cls .space),
  .opt (reCat [.lit (str ":"), .star (.cls .space), .cap 3 (RE.plus (.cls .dot))])]

/-- One alternative `(lit)\s+` of the modifier alternation, capture `k`. -/
def modElem (k : Nat) (lit : String) : RE :=
  reCat [.cap k (.lit (str lit)), RE.plus (.cls .space)]

/-- The 13-way modifier alternation of `__field_pattern`
(groups 1–13, in source order; group 9 is `(alignas\(.*?\))`). -/
def modAlt : RE :=
  [modElem 1 "static", modElem 2 "const", modElem 3 "constexpr",
   modElem 4 "inline", modElem 5 "mutable", modElem 6 "thread_local",
   modElem 7 "register", modElem 8 "extern",
   reCat [.cap 9 (reCat [.lit (str "alignas("), .starL (.cls .dot), .lit (str ")")]),
     RE.plus (.cls .space)],
   modElem 10 "[[nodiscard]]", modElem 11 "[[maybe_unused]]",
   modElem 12 "[[deprecated]]", modElem 13 "[[no_unique_address]]"
  ].foldr RE.alt (.negLA .eps)

/-- `CPParser.__field_pattern` (source lines 274–294):
```
(?:\s+|^)
(?:(static)\s+|(const)\s+|...|(\[\[no_unique_address\]\])\s+)*
((?:\w+(?:<.*>)?::)*\w+(?:<.*>)?(?:\s*[&\*]\s*)?)\s*
(\w+)(?:\s*(?:{.*})*\s*)?(?!\s*\(\));
```
Group 14 = declared type, group 15 = member name. -/
def fieldPat : RE := reCat [
  .alt (RE.plus (.cls .space)) .atStart,
  .star modAlt,
  .cap 14 (reCat [.star qualPart, RE.plus (.cls .word), .opt angleGreedy,
    .opt (reCat [.star (.cls .space), .cls .ampStar, .star (.cls .space)])]),
  .star (.cls .space),
  .cap 15 (RE.plus (.cls .word)),
  .opt (reCat [.star (.cls .space),
    .star (reCat [.lit (str "\x7b"), .star (.cls .dot), .lit (str "\x7d")]),
    .star (.cls .space)]),
  .negLA (reCat [.star (.cls .space), .lit (str "()")]),
  .lit (str ";")]

/-! ## The class model (source lines 13–251)

`dataclass` values become structures.  Python's index dictionaries
(`per_name`, `per_type`, `per_modifier`, `per_group`, `per_identifier`)
are write-through caches whose only mutator (`add`) keeps them consistent
with the backing list, so they are modelled as derived lookups over that
list rather than duplicated state. -/

/-- `MacroPair` (source lines 13–16). -/
structure MacroPair where
  begin : PyStr
  end_ : PyStr
deriving DecidableEq, Repr

/-- `ControlMacros` (source lines 19–24). -/
structure ControlMacros where
  declare : PyStr
  enum : PyStr
  group : MacroPair
  ignore : MacroPair
deriving DecidableEq, Repr

/-- `Group` (source lines 27–44). -/
structure Group where
  name : PyStr
  properties : List PyStr
deriving DecidableEq, Repr

/-- `Group.__eq__` for a `Group` argument (source lines 32–38): equality
compares only the `name` field. -/
def Group.pyEq (g other : Group) : Bool := g.name == other.name

/-- `Group.__eq__` for a `str` argument (source lines 32–34). -/
def Group.pyEqStr (g : Group) (other : PyStr) : Bool := g.name == other

/-- `Group.__hash__` (source lines 40–41): `hash(self.name)`.  The exact
hash function is irrelevant; what matters is that it reads only `name`. -/
def Group.pyHash (g : Group) : UInt64 := (String.mk g.name).hash

/-- `Field` (source lines 47–63); the `modifers` typo is the source's. -/
structure Field where
  name : PyStr
  visibility : PyStr
  vtype : PyStr
  modifers : List PyStr
  groups : List Group
deriving DecidableEq, Repr

/-- `FieldCollection` (source lines 66–112).  Only the backing `fields`
list is stored; see the section comment. -/
structure FieldCollection where
  fields : List Field
deriving DecidableEq, Repr

/-- `f.name in self.per_name` (the keys of `per_name` are exactly the
names of the fields in `fields`). -/
def FieldCollection.perNameMem (fc : FieldCollection) (n : PyStr) : Bool :=
  fc.fields.any (fun f => f.name == n)

/-- `FieldCollection.add` (source lines 74–83): fatal on a duplicate
field name, otherwise append. -/
def FieldCollection.add (fc : FieldCollection) (f : Field) : Res FieldCollection :=
  if fc.perNameMem f.name then
    .error (.fatal (str "Tried to add a field that already exists: " ++ f.name))
  else
    .ok ⟨fc.fields ++ [f]⟩

/-- `Identifier` (source lines 115–121). -/
structure Identifier where
  identifier : PyStr
  name : PyStr
  ctype : PyStr
  templdecl : Option PyStr
  inheritance : List PyStr
deriving DecidableEq, Repr

/-- `CPParser._split_template_list` (source lines 566–571):
`[nested_split(var, " ", openers="<", closers=">", n=1)[1] for var in
tlist.replace(", ", ",").split(",")]`; the `[1]` raises `IndexError`
when a parameter contains no top-level space. -/
def splitTemplateList (tlist : PyStr) : Res (List PyStr) :=
  (pySplitSub (str ",") (pyReplace (str ", ") (str ",") tlist)).mapM fun var =>
    match (nestedSplit var ' ' '<' '>' (some 1))[1]? with
    | some v => .ok v
    | none => .error .indexError

/-- `Identifier.template_arguments_instantiation_pairs` (source lines
138–145).  `self.identifier.split("<", 1)[1]` raises `IndexError` when
the identifier carries no `<`; a length mismatch is fatal
(ArityMismatch). -/
def Identifier.templatePairs (i : Identifier) (templargs : PyStr) :
    Res (List PyStr × List PyStr) :=
  match (pySplitSubN (str "<") 1 i.identifier)[1]? with
  | none => .error .indexError
  | some afterLt =>
    let tv1 := pySplitSub (str ",")
      (pyReplace (str ", ") (str ",") (pyStrip (pyStripChar '>' afterLt)))
    let tv2 := pySplitSub (str ",") (pyReplace (str ", ") (str ",") templargs)
    if tv1.length ≠ tv2.length then
      .error (.fatal (str "The amount of template arguments between the class declaration to instantiate and the ones to instantiate does not match."))
    else
      .ok (tv1, tv2)

/-- The loop body of `Identifier.template_matches` (source lines
129–136): count identical pairs, `-1` when a differing `t1` is not a
declared parameter. -/
def templateMatchCount (templdecl : List PyStr) : List (PyStr × PyStr) → Int
  | [] => 0
  | (t1, t2) :: rest =>
    if t1 = t2 then
      match templateMatchCount templdecl rest with
      | Int.negSucc n => Int.negSucc n
      | m => m + 1
    else if templdecl.contains t1 then
      templateMatchCount templdecl rest
    else
      -1

/-- `Identifier.template_matches` (source lines 123–136). -/
def Identifier.templateMatches (i : Identifier) (templargs : PyStr) : Res Int :=
  match i.templdecl with
  | none => .error (.fatal (str "Cannot measure template matches in a non template class."))
  | some td => do
    let templdecl ← splitTemplateList td
    let (tv1, tv2) ← i.templatePairs templargs
    pure (templateMatchCount templdecl (tv1.zip tv2))

/-- The store of `FieldCollection` objects.  Python's `FieldCollection`s
are mutable objects shared by reference (the final merge pass mutates the
collection inside a `Class` that is simultaneously referenced from the
resolution cache, from parent lists and from the returned collection), so
a `Class` holds an index into this store. -/
abbrev Store := List FieldCollection

/-- Dereference (indices are only created by `Store.alloc`). -/
def Store.get (s : Store) (r : Nat) : FieldCollection := s.getD r ⟨[]⟩

/-- Overwrite a cell. -/
def Store.setRef (s : Store) (r : Nat) (fc : FieldCollection) : Store := s.set r fc

/-- Allocate a fresh cell. -/
def Store.alloc (s : Store) (fc : FieldCollection) : Nat × Store :=
  (s.length, s ++ [fc])

/-- `Class` (source lines 148–154): `fields` is a reference into the
store; `file` is the path as text. -/
structure Class where
  id : Identifier
  parents : List Class
  namespaces : List PyStr
  fieldsRef : Nat
  file : Option PyStr
deriving Repr

/-- `Class.instantiate` (source lines 156–200).  Note the source rebuilds
the field collection inside the `for t1, t2` loop: the fields are added
once per substituted (`t1 != t2`) parameter pair, each time substituting
only that pair into the original field types. -/
def Class.instantiate (c : Class) (templargs : PyStr) (store : Store) :
    Res (Class × Store) := do
  match c.id.templdecl with
  | none => .error (.fatal (str "Cannot instantiate a non-template class."))
  | some td => do
    let (tv1, tv2) ← c.id.templatePairs templargs
    let templdecl ← splitTemplateList td
    let start : FieldCollection × List PyStr := (⟨[]⟩, [])
    let (fields, tdecl) ← pyFoldM (tv1.zip tv2) start fun acc p => do
      let (t1, t2) := p
      if t1 = t2 then
        if templdecl.contains t1 then
          let idx := templdecl.indexOf t1
          match (pySplitSub (str ",") (pyReplace (str ", ") (str ",") td))[idx]? with
          | some raw => pure (acc.1, acc.2 ++ [raw])
          | none => .error .indexError
        else
          pure acc
      else if !templdecl.contains t1 then
        .error (.fatal (str "The template argument to instantiate is not present in the template declaration list."))
      else
        let fc ← pyFoldM (store.get c.fieldsRef).fields acc.1 fun fc f =>
          fc.add ⟨f.name, f.visibility, wholeWordSub t1 t2 f.vtype, f.modifers, f.groups⟩
        pure (fc, acc.2)
    let tdeclStr := pyJoin (str ", ") tdecl
    let idf := c.id.name ++ str "<" ++ templargs ++ str ">"
    let id : Identifier :=
      ⟨idf, c.id.name, c.id.ctype, (if tdeclStr = [] then none else some tdeclStr),
       c.id.inheritance⟩
    let (ref, store2) := store.alloc fields
    pure (⟨id, c.parents, c.namespaces, ref, c.file⟩, store2)

/-- `Enum` (source lines 203–208); `values` is insertion-ordered like a
Python dict. -/
structure Enum where
  id : Identifier
  namespaces : List PyStr
  values : List (PyStr × Option PyStr)
  file : Option PyStr
deriving Repr

/-- Python `dict.__setitem__` on an insertion-ordered association list:
an existing key keeps its position but takes the new value. -/
def dictSet (m : List (PyStr × Option PyStr)) (k : PyStr) (v : Option PyStr) :
    List (PyStr × Option PyStr) :=
  if m.any (·.1 == k) then m.map (fun e => if e.1 == k then (k, v) else e)
  else m ++ [(k, v)]

/-- `ClassCollection` (source lines 211–226); indexes derived. -/
structure ClassCollection where
  classes : List Class
  enums : List Enum
deriving Repr

/-- The empty collection. -/
def ClassCollection.empty : ClassCollection := ⟨[], []⟩

/-- `identifier in self.per_identifier` / `self.per_identifier[...]`. -/
def ClassCollection.perIdentifier? (cc : ClassCollection) (id : PyStr) : Option Class :=
  cc.classes.find? (·.id.identifier == id)

/-- `ClassCollection.add` for a `Class` (source lines 218–226): fatal on
a duplicate canonical identifier. -/
def ClassCollection.add (cc : ClassCollection) (c : Class) : Res ClassCollection :=
  if (cc.perIdentifier? c.id.identifier).isSome then
    .error (.fatal (str "Tried to add a class that already exists: " ++ c.id.identifier))
  else
    .ok ⟨cc.classes ++ [c], cc.enums⟩

/-- `ClassCollection.add` for an `Enum` (source lines 219–221): appended
without any duplicate check. -/
def ClassCollection.addEnum (cc : ClassCollection) (e : Enum) : ClassCollection :=
  ⟨cc.classes, cc.enums ++ [e]⟩

/-- `_ClassInfo` (source lines 229–236), an unresolved entity record. -/
structure ClassInfo where
  id : Identifier
  file : Option PyStr
  namespaces : List PyStr
  body : List PyStr
  macroArgs : List PyStr
  hasDeclareMacro : Bool
deriving DecidableEq, Repr

/-- `_ClassInfoCollection` (source lines 239–250); indexes derived. -/
structure ClassInfoCollection where
  classes : List ClassInfo
deriving DecidableEq, Repr

/-- `identifier in self.per_identifier` / lookup. -/
def ClassInfoCollection.perIdentifier? (cc : ClassInfoCollection) (id : PyStr) :
    Option ClassInfo :=
  cc.classes.find? (·.id.identifier == id)

/-- `self.per_name[name]`: the infos with this bare name, in insertion
order. -/
def ClassInfoCollection.perName (cc : ClassInfoCollection) (n : PyStr) : List ClassInfo :=
  cc.classes.filter (·.id.name == n)

/-- `_ClassInfoCollection.add` (source lines 245–250): fatal on a
duplicate canonical identifier. -/
def ClassInfoCollection.add (cc : ClassInfoCollection) (c : ClassInfo) :
    Res ClassInfoCollection :=
  if (cc.perIdentifier? c.id.identifier).isSome then
    .error (.fatal (str "Tried to add a class info that already exists: " ++ c.id.identifier))
  else
    .ok ⟨cc.classes ++ [c]⟩

/-! ## Identifier parsing (source lines 573–637) -/

/-- `re.split(r"(?<!:):(?!:)", s, maxsplit=1)`: split at the first `:`
that is neither preceded nor followed by another `:`. -/
def reSplitSingleColon (s : PyStr) : List PyStr :=
  go none s []
where
  go : Option Char → PyStr → List Char → List PyStr
    | _, [], acc => [acc.reverse]
    | prev, c :: t, acc =>
      if c = ':' ∧ prev ≠ some ':' ∧ t.head? ≠ some ':' then [acc.reverse, t]
      else go (some c) t (c :: acc)

/-- `re.match(rf"{name}\((.*?)\)", line)`: the literal macro name, `(`,
then a lazy capture up to the first `)` (which must exist; `.` cannot
cross a newline, but a scanned line never contains one). -/
def matchMacroArgs (name line : PyStr) : Option PyStr :=
  if (name ++ str "(").isPrefixOf line then
    match pySplitSubN (str ")") 1 (line.drop (name.length + 1)) with
    | [a, _] => some a
    | _ => none
  else none

/-- `CPParser.__parse_identifier` (source lines 573–637). -/
def parseIdentifier (clsdecl : PyStr) (clstype : PyStr) : Res Identifier :=
  if clstype = str "enum" then
    -- enum identifiers are the text preceding any underlying-type colon
    let id0 := pyStrip ((pySplitSubN (str ":") 1 clsdecl).headI)
    let name := pyStrip (pyAfterLastSpace id0)
    .ok ⟨name, name, clstype, none, []⟩
  else
    let target := pyStrip (pyReplace (str "final") (str "")
      (pyReplace (str ", ") (str ",") clsdecl))
    match runMatch classPat target with
    | none =>
      .error (.fatal (str "A match was not found when trying to extract the name of the class."))
    | some caps =>
      -- `if not templdecl: templdecl = None` (both None and "" collapse)
      let templdecl : Option PyStr :=
        match capGet caps 1 with
        | some t => if t.isEmpty then none else some t
        | none => none
      match capGet caps 2 with
      | none =>
        .error (.fatal (str "Failed to extract a class identifier with the declaration line."))
      | some ident0 =>
        let identifier1 := pyReplace (str ",") (str ", ") (pyStrip ident0)
        -- re-split on the first top-level colon: template arguments can
        -- make the inheritance clause leak into the captured identifier
        let (identifier2, inheritance1) :=
          match reSplitSingleColon identifier1 with
          | [a, b] => (pyStrip a, some (pyStrip b))
          | _ => (identifier1, capGet caps 3)
        -- (source line 607 computes `templdecl.strip()` and discards it)
        let inheritance2 := inheritance1.map fun inh =>
          pyStrip (pyReplace (str "protected") (str "")
            (pyReplace (str "private") (str "")
              (pyReplace (str "public") (str "") inh)))
        let inhList := match inheritance2 with
          | some inh => (nestedSplit inh ',' '<' '>' none).map pyStrip
          | none => []
        if templdecl.isSome ∧ ¬ containsSub (str "<") identifier2 then
          match templdecl with
          | some td =>
            (splitTemplateList td).map fun tvars =>
              let identifier3 := identifier2 ++ str "<" ++ pyJoin (str ", ") tvars ++ str ">"
              ⟨identifier3, (pySplitSubN (str "<") 1 identifier3).headI, clstype,
               templdecl, inhList⟩
          | none => .error (.fatal (str "unreachable"))
        else
          .ok ⟨identifier2, (pySplitSubN (str "<") 1 identifier2).headI, clstype,
            templdecl, inhList⟩

/-! ## Entity scanning (source lines 432–557) -/

/-- `re.match(r"namespace ([a-zA-Z0-9_::]+)", line)`: the group is the
maximal run of `[a-zA-Z0-9_:]` after `namespace `. -/
def matchNamespace (line : PyStr) : Option PyStr :=
  if (str "namespace ").isPrefixOf line then
    let grp := (line.drop (str "namespace ").length).takeWhile
      (fun c => isWordChar c || c = ':')
    if grp.isEmpty then none else some grp
  else none

/-- The three entity-kind keyword heuristics (source lines 475–477):
`is_enum = "enum" in line`, `is_class = "class" in line and not is_enum`,
`is_struct = "struct" in line and not is_class`. -/
def entityFlags (line : PyStr) : Bool × Bool × Bool :=
  let isEnum := containsSub (str "enum") line
  let isClass := containsSub (str "class") line && !isEnum
  let isStruct := containsSub (str "struct") line && !isClass
  (isEnum, isClass, isStruct)

/-- Lines 475–492: classify the line, fatal when more than one flag is
set (`is_enum + is_class + is_struct > 1`), `none` when no flag is set
(the scanner just moves on). -/
def entityKindCheck (line : PyStr) : Res (Option PyStr) :=
  let (isEnum, isClass, isStruct) := entityFlags line
  if (if isEnum then 1 else 0) + (if isClass then 1 else 0)
      + (if isStruct then 1 else 0) > 1 then
    .error (.fatal (str "Class type mismatch. Parser is not sure if it found an enum, struct or class."))
  else if isEnum then .ok (some (str "enum"))
  else if isClass then .ok (some (str "class"))
  else if isStruct then .ok (some (str "struct"))
  else .ok none

/-- The body-consuming inner `while` (source lines 518–538).  Returns
`(end, resume, macro_args, has_declm)`: `end` for the `clsbody` slice and
`resume` the line index at which the outer loop continues (both equal
`index + 1` when `"};"` is found at `index`; `end = len(lines)` and
`resume = len(lines) + 1` otherwise). -/
def findBodyF (declm : PyStr) (lines : List PyStr) :
    Nat → Nat → List PyStr → Bool → Res (Nat × Nat × List PyStr × Bool)
  | 0, index, macroArgs, hasDeclm =>
    -- unreachable: fuel exceeds the number of remaining lines
    .ok (lines.length, index + 1, macroArgs, hasDeclm)
  | f + 1, index, macroArgs, hasDeclm =>
    if index < lines.length then
      let subline := pyStrip (lines.getD index [])
      if containsSub declm subline then
        if hasDeclm then
          .error (.fatal (str "Found a duplicate declare macro statement for the class."))
        else
          match matchMacroArgs declm subline with
          | none =>
            .error (.fatal (str "Failed to match declare macro arguments for the line."))
          | some g1 =>
            let args := (nestedSplit g1 ',' '<' '>' none).map pyStrip
            if subline = str "\x7d;" then .ok (index + 1, index + 1, args, true)
            else findBodyF declm lines f (index + 1) args true
      else
        if subline = str "\x7d;" then .ok (index + 1, index + 1, macroArgs, hasDeclm)
        else findBodyF declm lines f (index + 1) macroArgs hasDeclm
    else
      .ok (lines.length, index + 1, macroArgs, hasDeclm)

/-- The scanner's loop state: the namespace accumulator (a single Python
list, extended in place and never popped), the current file tag, the
names registered by the standalone enum-declare macro, and the entity
records found so far. -/
structure ScanState where
  namespaces : List PyStr
  file : Option PyStr
  enums : List PyStr
  infos : ClassInfoCollection
deriving DecidableEq, Repr

/-- `CPParser.__find_entities` main loop (source lines 444–557), one call
per outer `while` iteration.  The entity records are created with the
namespace accumulator's value at creation time, exactly as line 553 does
— but see `findEntities` below for the reference-sharing this stands
for.  Fuel bounds the number of iterations (the index strictly grows),
so the unreachable fuel-0 branch just ends the scan. -/
def findEntitiesF (macros : ControlMacros) (lines : List PyStr) :
    Nat → Nat → ScanState → Res ScanState
  | 0, _, st => .ok st
  | f + 1, index, st =>
    match lines[index]? with
    | none => .ok st
    | some rawLine =>
      let line := pyStrip rawLine
      (do
        -- `if "CPParser file" in line: file = Path(line.split(": ", 1)[1]...)`
        let file1 : Option PyStr ←
          if containsSub (str "CPParser file") line then
            match (pySplitSubN (str ": ") 1 line)[1]? with
            | some p => .ok (some (pyStrip (pyStripChar '\n' p)))
            | none => .error Err.indexError
          else .ok st.file
        let st := { st with file := file1 }
        -- standalone enum-declare macro line
        if containsSub macros.enum line && !containsSub (str "#define") line then
          match matchMacroArgs macros.enum line with
          | none =>
            .error (.fatal (str "Failed to match enum declare macro arguments for the line."))
          | some name =>
            -- a duplicate registration is only a warning
            findEntitiesF macros lines f (index + 1)
              { st with enums := st.enums ++ [name] }
        else if pyEndsWith (str ";") line then
          findEntitiesF macros lines f (index + 1) st
        else
          match matchNamespace line with
          | some grp =>
            findEntitiesF macros lines f (index + 1)
              { st with namespaces := st.namespaces ++ pySplitSub (str "::") grp }
          | none => do
            let kind ← entityKindCheck line
            match kind with
            | none => findEntitiesF macros lines f (index + 1) st
            | some clstype =>
              -- the immediately preceding line as a template header
              let templateLine : Option PyStr :=
                if index > 0 then
                  match lines[index - 1]? with
                  | some prevL =>
                    if containsSub (str "template") prevL &&
                        !containsSub (str "struct") prevL &&
                        !containsSub (str "class") prevL then
                      some (pyStrip prevL)
                    else none
                  | none => none
                else none
              if (match templateLine with
                  | some tl => decide (pyCountSub (str "template") tl > 1)
                  | none => false) then
                -- nested template headers: warning, skip this line
                findEntitiesF macros lines f (index + 1) st
              else do
                let (endIdx, resume, macroArgs, hasDeclm) ←
                  findBodyF macros.declare lines (lines.length + 1) index [] false
                let clsdecl := match templateLine with
                  | none => lines.getD index []
                  | some tl => lines.getD index [] ++ str "\n" ++ tl
                let clsbody := (lines.drop (index + 1)).take (endIdx - (index + 1))
                let identifier ← parseIdentifier clsdecl clstype
                if clstype = str "enum" && !st.enums.contains identifier.identifier then
                  findEntitiesF macros lines f resume st
                else if (st.infos.perIdentifier? identifier.identifier).isSome then
                  .error (.fatal (str "Found a class with a duplicate identifier: " ++ identifier.identifier))
                else do
                  let infos2 ← st.infos.add
                    ⟨identifier, st.file, st.namespaces, clsbody, macroArgs, hasDeclm⟩
                  findEntitiesF macros lines f resume { st with infos := infos2 })

/-- `CPParser.__find_entities` up to the namespace-sharing correction:
the raw scan, whose records carry the accumulator value snapshotted at
creation time. -/
def findEntitiesRaw (macros : ControlMacros) (code : PyStr) (lineDelm : PyStr) :
    Res ScanState :=
  let lines := pySplitSub lineDelm code
  findEntitiesF macros lines (lines.length + 1) 0 ⟨[], none, [], ⟨[]⟩⟩

/-- `CPParser.__find_entities` (source lines 432–557), as observed by the
rest of the run.  The source stores a reference to the single mutable
`namespaces` list (extended in place at line 471, never popped) into
every `_ClassInfo` it creates (line 553); every read of a record's
`namespaces` happens after the scan has finished, so the value observed
is the final accumulated list.  This substitution models exactly that
sharing. -/
def findEntities (macros : ControlMacros) (code : PyStr) (lineDelm : PyStr) :
    Res (ClassInfoCollection × List PyStr) :=
  (findEntitiesRaw macros code lineDelm).map fun st =>
    (⟨st.infos.classes.map fun ci => { ci with namespaces := st.namespaces }⟩,
     st.namespaces)

/-! ## Enum and class creation (source lines 639–798) -/

/-- `CPParser.__create_enum` (source lines 639–660). -/
def createEnum (clinfo : ClassInfo) : Res Enum :=
  if clinfo.id.ctype ≠ str "enum" then
    .error (.fatal (str "Cannot use __create_enum for an entity that is not an enum."))
  else
    let forbidden := [str "\x7b", str "\x7d", str "(", str ")", str ";"]
    let values := pyFold clinfo.body [] fun vals line0 =>
      let line := pyStrip (pyStripChar ',' line0)
      if forbidden.any (fun f => containsSub f line) then vals
      else
        let splt := pySplitSubN (str "=") 1 line
        dictSet vals (pyStrip splt.headI) ((splt[1]?).map pyStrip)
    .ok ⟨clinfo.id, clinfo.namespaces, values, clinfo.file⟩

/-- `list({g.name: g for g in groups}.values())` (source line 778): keep
one group per name — first-occurrence position, last-occurrence value. -/
def dedupGroups (groups : List Group) : List Group :=
  (pyFold groups [] fun m g =>
    if m.any (fun e => e.1 == g.name) then
      m.map (fun e => if e.1 == g.name then (g.name, g) else e)
    else m ++ [(g.name, g)]).map (·.2)

/-- `check_group_macros` (source lines 691–718): push on a group-begin
line (empty and reserved names fatal), pop the innermost group on a
group-end line (`groups.pop()` raises `IndexError` on an empty stack). -/
def checkGroupMacros (macros : ControlMacros) (reserved : List PyStr)
    (line : PyStr) (groups : List Group) : Res (List Group) :=
  if containsSub macros.group.begin line then
    match matchMacroArgs macros.group.begin line with
    | none => .error (.fatal (str "Failed to match group name macro."))
    | some g1 =>
      let props0 := pySplitSub (str ",")
        (pyReplace (str ", ") (str ",") (pyReplace (str "\"") (str "") g1))
      match props0 with
      | [] => .error (.fatal (str "unreachable: split yields at least one piece"))
      | name :: properties =>
        if name = [] then
          .error (.fatal (str "Group name cannot be empty."))
        else if reserved.contains name then
          .error (.fatal (str "Group name is listed as a reserved name: " ++ name))
        else
          .ok (groups ++ [⟨name, properties⟩])
  else if containsSub macros.group.end_ line then
    match groups with
    | [] => .error .indexError  -- `groups.pop()` on an empty list
    | _ => .ok groups.dropLast
  else
    .ok groups

/-- `check_ignore_macros` (source lines 720–728): returns
`(process-this-line?, new ignore flag)`. -/
def checkIgnoreMacros (macros : ControlMacros) (line : PyStr) (ignore : Bool) :
    Bool × Bool :=
  if containsSub macros.ignore.end_ line then (true, false)
  else if ignore || containsSub macros.ignore.begin line then (false, true)
  else (true, ignore)

/-- The per-line state of the field-extraction walk. -/
structure WalkSt where
  groups : List Group
  scope : Int
  ignore : Bool
  visibility : PyStr
  fields : FieldCollection
deriving DecidableEq, Repr

/-- One iteration of `__create_class`'s body walk (source lines
730–782). -/
def walkLine (macros : ControlMacros) (reserved : List PyStr)
    (st : WalkSt) (line0 : PyStr) : Res WalkSt := do
  let line := pyStrip line0
  let groups ← checkGroupMacros macros reserved line st.groups
  let st := { st with groups := groups }
  let (proc, ignore2) := checkIgnoreMacros macros line st.ignore
  let st := { st with ignore := ignore2 }
  if !proc then .ok st
  else
    let scope := st.scope + (if containsSub (str "\x7b") line then 1 else 0)
      - (if containsSub (str "\x7d") line then 1 else 0)
    let st := { st with scope := scope }
    if scope < 0 then
      .error (.fatal (str "Scope counter reached a negative value."))
    else if containsSub (str "using") line || scope ≠ 1 then
      .ok st
    else
      let vis := st.visibility
      let vis := if containsSub (str "private:") line then str "private" else vis
      let vis := if containsSub (str "public:") line then str "public" else vis
      let vis := if containsSub (str "protected:") line then str "protected" else vis
      let st := { st with visibility := vis }
      let count := pyCountSub (str "=") line
      if count > 1 then .ok st
      else
        let line :=
          if count = 1 then
            let parts := pySplitSubN (str "=") 1 line
            pyStrip parts.headI ++ str "\x7b"
              ++ pyStrip (pyStripChar ';' (parts.getD 1 [])) ++ str "\x7d;"
          else line
        match runMatch fieldPat line with
        | none => .ok st
        | some caps =>
          let modifiers := ((List.range 13).map (fun g => capGet caps (g + 1))).filterMap id
          match capGet caps 14, capGet caps 15 with
          | some vtype, some vname =>
            let field : Field :=
              ⟨vname, vis, pyReplace (str ",") (str ", ") vtype, modifiers,
               dedupGroups st.groups⟩
            let fields2 ← st.fields.add field
            .ok { st with fields := fields2 }
          | _, _ =>
            .error (.fatal (str "Failed to match the field type or name in line."))

/-- `CPParser.__create_class` (source lines 662–798): read-through on
the memoization cache, otherwise walk the body, build the field
collection, construct the `Class` and cache it. -/
def createClass (macros : ControlMacros) (reserved : List PyStr)
    (clinfo : ClassInfo) (parents : List Class)
    (cache : ClassCollection) (store : Store) :
    Res (Class × ClassCollection × Store) := do
  if clinfo.id.ctype ≠ str "class" ∧ clinfo.id.ctype ≠ str "struct" then
    .error (.fatal (str "Cannot use __create_class for an entity that is not a class or struct."))
  else
    match cache.perIdentifier? clinfo.id.identifier with
    | some c => .ok (c, cache, store)
    | none => do
      let vis0 := if clinfo.id.ctype = str "class" then str "private" else str "public"
      let w ← pyFoldM clinfo.body (⟨[], 0, false, vis0, ⟨[]⟩⟩ : WalkSt)
        (walkLine macros reserved)
      if w.ignore then
        .error (.fatal (str "Ignore macro was not closed properly."))
      else if w.groups ≠ [] then
        .error (.fatal (str "Group macro was not closed properly."))
      else
        let (ref, store2) := store.alloc w.fields
        let cl : Class := ⟨clinfo.id, parents, clinfo.namespaces, ref, clinfo.file⟩
        let cache2 ← cache.add cl
        .ok (cl, cache2, store2)

/-! ## Parent resolution and the parse run (source lines 306–430) -/

/-- The nested `parse_class` (source lines 322–401), with a fuel
parameter for its recursion: the source recursion has no cycle guard and
no depth bound, so exhausted fuel (`Err.outOfFuel`) models a recursion
that never returns (Python eventually dies with `RecursionError`). -/
def parseClassF (macros : ControlMacros) (reserved : List PyStr) (relaxed : Bool)
    (clinfos : ClassInfoCollection) :
    Nat → ClassInfo → Bool → ClassCollection → Store →
    Res (Option Class × ClassCollection × Store)
  | 0, _, _, _, _ => .error .outOfFuel
  | fuel + 1, clinfo, overrideDeclm, cache, store => do
    let pids ←
      if clinfo.hasDeclareMacro then
        match clinfo.macroArgs with
        | [] =>
          .error (.fatal (str "The first argument of the declare macro must be the class name, but it has currently no arguments."))
        | name :: rest =>
          if name ≠ clinfo.id.name then
            .error (.fatal (str "The first argument of the declare macro must be the class name, but it found: " ++ name))
          else
            .ok (if relaxed then clinfo.id.inheritance else rest)
      else if overrideDeclm then
        .ok (if relaxed then clinfo.id.inheritance else [])
      else
        .ok []
    if !clinfo.hasDeclareMacro && !overrideDeclm then
      -- `return None`: unmarked entities are not promoted on their own
      .ok (none, cache, store)
    else do
      let (parents, cache, store) ←
        pyFoldM pids (([] : List Class), cache, store) fun acc pid => do
          let (parents, cache, store) := acc
          match cache.perIdentifier? pid with
          | some pc => .ok (parents ++ [pc], cache, store)
          | none => do
            let needsInst := (clinfos.perIdentifier? pid).isNone
            -- line 348: `pid.split("<", 1)[1]` raises IndexError when the
            -- parent identifier carries no `<` (this happens before the
            -- `"<" not in pid` diagnostic below, which is therefore dead)
            let templargs ←
              match (pySplitSubN (str "<") 1 pid)[1]? with
              | some a => pure (pyStrip (pyStripChar '>' a))
              | none => .error Err.indexError
            let pclinfo? ←
              if needsInst then
                if ¬ containsSub (str "<") pid then
                  -- unreachable, see above
                  if relaxed then pure none
                  else .error (.fatal (str "The parent identifier is not templated. An instantiation is not possible."))
                else
                  let pname := (pySplitSubN (str "<") 1 pid).headI
                  if (clinfos.perName pname).isEmpty then
                    if relaxed then pure none
                    else .error (.fatal (str "The parent name was not found: " ++ pname))
                  else do
                    let (_, best) ← pyFoldM (clinfos.perName pname)
                      ((0 : Int), (none : Option ClassInfo)) fun acc2 p =>
                        match p.id.templdecl with
                        | none => pure acc2  -- not eligible, verbose only
                        | some _ => do
                          let mtc ← p.id.templateMatches templargs
                          if mtc ≥ acc2.1 then pure (mtc, some p)
                          else pure acc2
                    match best with
                    | none =>
                      if relaxed then pure none
                      else .error (.fatal (str "No elligible class or struct was found from which to instantiate: " ++ pid))
                    | some p => pure (some p)
              else
                pure (clinfos.perIdentifier? pid)
            match pclinfo? with
            | none => .ok (parents, cache, store)  -- relaxed: parent dropped
            | some pclinfo => do
              let (c?, cache2, store2) ←
                parseClassF macros reserved relaxed clinfos fuel pclinfo true cache store
              match c? with
              | none =>
                .error (.fatal (str "The function parse_class returned None when overriding declare macro. It should not happen."))
              | some c =>
                if needsInst then do
                  let (ci, store3) ← c.instantiate templargs store2
                  .ok (parents ++ [ci], cache2, store3)
                else
                  .ok (parents ++ [c], cache2, store2)
      let (cl, cache2, store2) ← createClass macros reserved clinfo parents cache store
      .ok (some cl, cache2, store2)

/-- The final inheritance-merge pass (source lines 414–428): for each
promoted class, append each parent field into the child's (shared,
mutable) field collection unless the child already owns that name; a
shadowed field is only a warning. -/
def mergePass (classes : ClassCollection) (store : Store) : Res Store :=
  pyFoldM classes.classes store fun store c =>
    pyFoldM c.parents store fun store parent =>
      pyFoldM (store.get parent.fieldsRef).fields store fun store f =>
        if (store.get c.fieldsRef).perNameMem f.name then
          .ok store  -- shadowed parent field: dropped with a diagnostic
        else do
          let fc ← (store.get c.fieldsRef).add f
          .ok (store.setRef c.fieldsRef fc)

/-- The persistent state of a `CPParser` instance between `parse` calls:
the `self.__cache` collection and (our model of) the Python heap that
holds the mutable field collections.  `parse` never resets either. -/
structure PState where
  cache : ClassCollection
  store : Store

/-- The empty instance state (a freshly constructed parser). -/
def PState.empty : PState := ⟨ClassCollection.empty, []⟩

/-- `CPParser.__init__`'s code preprocessing (source lines 258–260). -/
def preprocess (code : PyStr) : PyStr :=
  pyReplace (str "template ") (str "template")
    (pyReplace (str ",class") (str ",typename")
      (pyReplace (str "<class") (str "<typename") code))

/-- `CPParser.parse` (source lines 306–430): scan, promote macro-marked
entities (enums by value collection, classes through `parse_class`),
then run the final merge pass.  `code` must already be preprocessed by
`preprocess`; `fuel` bounds the `parse_class` recursion depth. -/
def parse (macros : ControlMacros) (code : PyStr) (lineDelm : PyStr)
    (reserved : List PyStr) (relaxed : Bool) (fuel : Nat) (ps : PState) :
    Res (ClassCollection × PState) := do
  let (clinfos, _) ← findEntities macros code lineDelm
  let (classes, cache, store) ← pyFoldM clinfos.classes
    (ClassCollection.empty, ps.cache, ps.store) fun acc clinfo => do
      let (classes, cache, store) := acc
      if clinfo.id.ctype = str "enum" then do
        let enum ← createEnum clinfo
        if enum.values ≠ [] then .ok (classes.addEnum enum, cache, store)
        else .ok (classes, cache, store)
      else do
        let (c?, cache2, store2) ←
          parseClassF macros reserved relaxed clinfos fuel clinfo false cache store
        match c? with
        | none => .ok (classes, cache2, store2)
        | some cl => do
          let classes2 ← classes.add cl
          .ok (classes2, cache2, store2)
  let store2 ← mergePass classes store
  .ok (classes, ⟨cache, store2⟩)

/-! ## Concrete fixtures used by the claim theorems

The macro dialect is configurable (spec section 6); the fixtures use the
names `DECLARE` / `ENUM_DECLARE` / `GROUP_BEGIN` / `GROUP_END` /
`IGNORE_BEGIN` / `IGNORE_END` throughout.  The inputs put `{` on its own
line because the scanner skips any line that ends with `;` (source line
464), so a one-line `struct ... { ... };` is never recognized. -/

instance : Inhabited Class := ⟨⟨⟨[], [], [], none, []⟩, [], [], 0, none⟩⟩

/-- The fixture macro configuration. -/
def stdMacros : ControlMacros :=
  ⟨str "DECLARE", str "ENUM_DECLARE", ⟨str "GROUP_BEGIN", str "GROUP_END"⟩,
   ⟨str "IGNORE_BEGIN", str "IGNORE_END"⟩⟩

/-- A complete run: `CPParser(code, macros=stdMacros)` (preprocessing)
followed by `parse(...)` with the given relaxed flag, recursion fuel and
instance state. -/
def runParseF (fuel : Nat) (code : String) (relaxed : Bool) (ps : PState) :
    Res (ClassCollection × PState) :=
  parse stdMacros (preprocess (str code)) (str "\n") [] relaxed fuel ps

/-- A complete run with ample recursion fuel. -/
def runParse (code : String) (relaxed : Bool) (ps : PState) :
    Res (ClassCollection × PState) :=
  runParseF 50 code relaxed ps

/-- The field names of a class, in collection order, as observed through
the store. -/
def fieldNames (store : Store) (c : Class) : List PyStr :=
  (store.get c.fieldsRef).fields.map (·.name)

/-- `template <typename T> struct Box { DECLARE(Box); T value; };`
(spec section 8), laid out with the braces on their own lines. -/
def boxCode : String :=
  "template <typename T> struct Box\n\x7b\nDECLARE(Box);\nT value;\n\x7d;\n"

/-- The `Box` run. -/
def boxRun : Res (ClassCollection × PState) := runParse boxCode false PState.empty

/-- The promoted generic `Box<T>`. -/
def boxClass : Class :=
  match boxRun with
  | .ok (col, _) => col.classes.headI
  | _ => default

/-- The store after the `Box` run. -/
def boxStore : Store :=
  match boxRun with
  | .ok (_, ps) => ps.store
  | _ => []

/-- `struct Base { DECLARE(Base); int x; };` and
`struct Child : Base { DECLARE(Child); float y; };` (spec section 8). -/
def baseChildCode : String :=
  "struct Base\n\x7b\nDECLARE(Base);\nint x;\n\x7d;\n" ++
  "struct Child : Base\n\x7b\nDECLARE(Child);\nfloat y;\n\x7d;\n"

/-- The `Base`/`Child` run under relaxed inheritance resolution. -/
def baseChildRun : Res (ClassCollection × PState) :=
  runParse baseChildCode true PState.empty

/-- A generic struct `P<T, U>` with one field `int x`, exactly as the
identifier parser produces it from
`template <typename T, typename U> struct P`. -/
def genericP : Class :=
  ⟨⟨str "P<T, U>", str "P", str "struct", some (str "typename T,typename U"), []⟩,
   [], [], 0, none⟩

/-- The store holding `genericP`'s single field `int x`. -/
def genericPStore : Store := [⟨[⟨str "x", str "public", str "int", [], []⟩]⟩]

/-- The error of a result, if any (`Class` carries no decidable
equality, so claim statements inspect results through this projection
and through field/identifier projections). -/
def resErr {α : Type} : Res α → Option Err
  | .error e => some e
  | .ok _ => none

/-- The classes of a successful parse, `[]` on error. -/
def resClasses : Res (ClassCollection × PState) → List Class
  | .ok (col, _) => col.classes
  | .error _ => []

/-- The final store of a successful parse, `[]` on error. -/
def resStore : Res (ClassCollection × PState) → Store
  | .ok (_, ps) => ps.store
  | .error _ => []

/-- The `Base`/`Child` classes after the run. -/
def baseClass : Class := (resClasses baseChildRun).getD 0 default

/-- The merged `Child` class. -/
def childClass : Class := (resClasses baseChildRun).getD 1 default

/-- The store after the `Base`/`Child` run (post merge pass). -/
def baseChildStore : Store := resStore baseChildRun

/-- `boxClass.instantiate("int")`. -/
def boxInst : Res (Class × Store) := boxClass.instantiate (str "int") boxStore

/-- The instantiated `Box<int>`. -/
def boxInstClass : Class :=
  match boxInst with
  | .ok (c, _) => c
  | .error _ => default

/-- The store after instantiating `Box<int>`. -/
def boxInstStore : Store :=
  match boxInst with
  | .ok (_, st) => st
  | .error _ => []

/-- `boxClass.instantiate("T")` — the zero-substitution instantiation
(the requested argument is textually the parameter itself). -/
def boxSelfInst : Res (Class × Store) := boxClass.instantiate (str "T") boxStore

/-- Mutually recursive templated parents: `A<T> : B<T>` and
`B<T> : A<T>` (via declare-macro arguments). -/
def cycleCode : String :=
  "template <typename T> struct A\n\x7b\nDECLARE(A, B<T>);\n\x7d;\n" ++
  "template <typename T> struct B\n\x7b\nDECLARE(B, A<T>);\n\x7d;\n"

/-- A struct whose body closes a group that was never opened. -/
def groupEndCode : String :=
  "struct W\n\x7b\nDECLARE(W);\nGROUP_END()\nint x;\n\x7d;\n"

/-- An entity declared before a namespace header: `struct A {...};`
followed by `namespace foo { struct B {...}; }`. -/
def nsAliasCode : String :=
  "struct A\n\x7b\nDECLARE(A);\n\x7d;\nnamespace foo \x7b\n" ++
  "struct B\n\x7b\nDECLARE(B);\n\x7d;\n\x7d\n"

/-- The scan of `nsAliasCode`. -/
def nsAliasScan : Res (ClassInfoCollection × List PyStr) :=
  findEntities stdMacros (preprocess (str nsAliasCode)) (str "\n")

/-- The records of the `nsAliasCode` scan. -/
def nsAliasInfos : ClassInfoCollection :=
  match nsAliasScan with
  | .ok (infos, _) => infos
  | .error _ => ⟨[]⟩

/-- The record of `struct A` (declared before `namespace foo`). -/
def nsAliasRecA : ClassInfo :=
  (nsAliasInfos.classes.getD 0 ⟨⟨[], [], [], none, []⟩, none, [], [], [], false⟩)

/-- The cross-run cache-interference input (for the idempotence claim):
a plain `P` with one field, a fieldless two-parameter generic `G<T, U>`
inheriting from `P`, and a `C` inheriting from the instantiation
`G<int,float>`. -/
def cacheCode : String :=
  "struct P\n\x7b\nDECLARE(P);\nint v;\n\x7d;\n" ++
  "template <typename T, typename U> struct G\n\x7b\nDECLARE(G, P);\n\x7d;\n" ++
  "struct C\n\x7b\nDECLARE(C, G<int,float>);\n\x7d;\n"

/-- The first parse of `cacheCode` on a fresh parser instance. -/
def cacheRun1 : Res (ClassCollection × PState) := runParse cacheCode false PState.empty

/-- The instance state after the first parse (cache and heap carried to
the next `parse` call — `parse` never clears them). -/
def cachePS1 : PState :=
  match cacheRun1 with
  | .ok (_, ps) => ps
  | .error _ => PState.empty

/-- The second parse of the identical input on the same instance. -/
def cacheRun2 : Res (ClassCollection × PState) := runParse cacheCode false cachePS1

/-- The shadowing variant of the `Base`/`Child` example: `Child` also
declares an `int x` of its own. -/
def shadowCode : String :=
  "struct Base\n\x7b\nDECLARE(Base);\nint x;\n\x7d;\n" ++
  "struct Child : Base\n\x7b\nDECLARE(Child);\nfloat y;\nint x;\n\x7d;\n"

/-- The shadowing run (relaxed inheritance resolution). -/
def shadowRun : Res (ClassCollection × PState) := runParse shadowCode true PState.empty

/-- The merged shadowing `Child`. -/
def shadowChild : Class := (resClasses shadowRun).getD 1 default

/-- The scan record of `struct A` in `cycleCode` (checked against the
scanner output in `c3_cycle_unbounded_recursion`). -/
def cycleInfoA : ClassInfo :=
  ⟨⟨str "A<T>", str "A", str "struct", some (str "typename T"), []⟩, none, [],
   [str "\x7b", str "DECLARE(A, B<T>);", str "\x7d;"], [str "A", str "B<T>"], true⟩

/-- The scan record of `struct B` in `cycleCode`. -/
def cycleInfoB : ClassInfo :=
  ⟨⟨str "B<T>", str "B", str "struct", some (str "typename T"), []⟩, none, [],
   [str "\x7b", str "DECLARE(B, A<T>);", str "\x7d;"], [str "B", str "A<T>"], true⟩

/-- The scanned entity table of `cycleCode`. -/
def cycleInfos : ClassInfoCollection := ⟨[cycleInfoA, cycleInfoB]⟩

/-- The class produced by the zero-substitution instantiation. -/
def boxSelfInstClass : Class :=
  match boxSelfInst with
  | .ok (c, _) => c
  | .error _ => default

/-- The store after the zero-substitution instantiation. -/
def boxSelfInstStore : Store :=
  match boxSelfInst with
  | .ok (_, st) => st
  | .error _ => []

/-! ## Claim theorems -/

set_option maxRecDepth 1000000
set_option maxHeartbeats 4000000

/-- C9: for every pair of `Group` values, Python equality compares only
the names (`g1 == g2` iff `g1.name == g2.name`, and likewise against a
bare string), and equal names give equal hashes regardless of the option
lists. -/
theorem c9_group_identity_by_name :
    (∀ g1 g2 : Group, Group.pyEq g1 g2 = true ↔ g1.name = g2.name) ∧
    (∀ (g : Group) (s : PyStr), Group.pyEqStr g s = true ↔ g.name = s) ∧
    (∀ g1 g2 : Group, g1.name = g2.name → Group.pyHash g1 = Group.pyHash g2) := by
  refine ⟨fun g1 g2 => ?_, fun g s => ?_, fun g1 g2 h => ?_⟩
  · simp [Group.pyEq]
  · simp [Group.pyEqStr]
  · simp [Group.pyHash, h]

/-- Witness for C9 at concrete groups with different option lists. -/
theorem c9_group_identity_by_name_witness :
    Group.pyEq ⟨str "Net", [str "skip-if-missing"]⟩ ⟨str "Net", []⟩ = true ∧
    Group.pyHash ⟨str "Net", [str "skip-if-missing"]⟩ = Group.pyHash ⟨str "Net", []⟩ :=
  ⟨(c9_group_identity_by_name.1 _ _).mpr rfl,
   c9_group_identity_by_name.2.2 _ _ rfl⟩

/-- C4 counterexample: the line `enum class E` matches both the `class`
and the `enum` keyword heuristics, yet the scanner classifies it as an
enum and does not abort — the run over a whole file containing it
completes without error.  (The claim says this situation is fatal.) -/
theorem c4_counterexample :
    containsSub (str "enum") (str "enum class E") = true ∧
    containsSub (str "class") (str "enum class E") = true ∧
    entityKindCheck (str "enum class E") = .ok (some (str "enum")) ∧
    resErr (runParse "enum class E\n\x7b\n\x7d;\n" false PState.empty) = none := by
  decide

/-- C4 amended: the three flags are prioritized (`enum` suppresses
`class`, `class` suppresses `struct`), so the StructuralAmbiguity abort
fires exactly when the line contains both `enum` and `struct`; a line
with both `class` and `enum` is classified as an enum, not fatal. -/
theorem c4_kind_ambiguity_amended (line : PyStr) :
    ((entityKindCheck line).isOk = false ↔
      containsSub (str "enum") line = true ∧ containsSub (str "struct") line = true) ∧
    (containsSub (str "enum") line = true → containsSub (str "struct") line = false →
      entityKindCheck line = .ok (some (str "enum"))) := by
  unfold entityKindCheck entityFlags
  by_cases he : containsSub (str "enum") line <;>
    by_cases hc : containsSub (str "class") line <;>
      by_cases hs : containsSub (str "struct") line <;>
        simp [he, hc, hs, Except.isOk, Except.toBool]

/-- Witness for C4 amended: `enum struct E2` is fatal, `enum class E`
is classified as an enum. -/
theorem c4_kind_ambiguity_amended_witness :
    (entityKindCheck (str "enum struct E2")).isOk = false ∧
    entityKindCheck (str "enum class E") = .ok (some (str "enum")) :=
  ⟨(c4_kind_ambiguity_amended (str "enum struct E2")).1.mpr (by decide),
   (c4_kind_ambiguity_amended (str "enum class E")).2 (by decide) (by decide)⟩

/-- C6: parsing the `Box` example produces the canonical identifier
`Box<T>` (synthesized from the bare parameter name, since the declared
name carries no explicit arguments), with the raw parameter list
`typename T` and the single field `value : T`; instantiating the generic
with `int` yields identifier `Box<int>`, exactly one field
`value : int`, and an empty remaining template-parameter list. -/
theorem c6_box_parse_and_instantiate :
    resErr boxRun = none ∧
    (resClasses boxRun).map (·.id.identifier) = [str "Box<T>"] ∧
    boxClass.id.name = str "Box" ∧
    boxClass.id.templdecl = some (str "typename T") ∧
    (boxStore.get boxClass.fieldsRef).fields.map (fun f => (f.name, f.vtype)) =
      [(str "value", str "T")] ∧
    resErr boxInst = none ∧
    boxInstClass.id.identifier = str "Box<int>" ∧
    boxInstClass.id.templdecl = none ∧
    (boxInstStore.get boxInstClass.fieldsRef).fields.map (fun f => (f.name, f.vtype)) =
      [(str "value", str "int")] := by
  decide

/-- C2 counterexample: in the `Base`/`Child` example under relaxed
inheritance resolution the merged field sequence of `Child` is
`[y, x]` — the child's own field first, the inherited one appended — and
not the claimed parent-then-child `[x, y]`. -/
theorem c2_counterexample :
    resErr baseChildRun = none ∧
    childClass.id.identifier = str "Child" ∧
    fieldNames baseChildStore childClass = [str "y", str "x"] ∧
    fieldNames baseChildStore childClass ≠ [str "x", str "y"] := by
  decide

/-- A monadic fold whose every step succeeds, succeeds. -/
theorem pyFoldM_isOk {α σ : Type} (l : List α) (s : σ) (f : σ → α → Res σ)
    (h : ∀ s a, (f s a).isOk = true) : (pyFoldM l s f).isOk = true := by
  induction l generalizing s with
  | nil => rfl
  | cons a rest ih =>
    have ha := h s a
    cases hf : f s a with
    | error e => rw [hf] at ha; simp [Except.isOk, Except.toBool] at ha
    | ok v => simpa [pyFoldM, List.foldlM_cons, hf, Except.bind] using ih v

/-- The merge pass never aborts: every `add` is guarded by the shadow
check on the same (current) collection, so the duplicate-name error is
unreachable. -/
theorem mergePass_isOk (classes : ClassCollection) (store : Store) :
    (mergePass classes store).isOk = true := by
  unfold mergePass
  apply pyFoldM_isOk
  intro s c
  apply pyFoldM_isOk
  intro s2 p
  apply pyFoldM_isOk
  intro s3 f
  by_cases h : (s3.get c.fieldsRef).perNameMem f.name
  · simp [h, Except.isOk, Except.toBool]
  · simp only [h, FieldCollection.add, if_false, Bool.false_eq_true]
    rfl

/-- C2 amended: the merge pass copies each parent field into the child
unless the child already owns that name, appending the copies after the
child's own fields (child-then-parent order, not parent-then-child); a
shadowed parent field is dropped and the merge pass itself never aborts.
In the `Base`/`Child` example the merged `Child` sequence is `[y, x]`
with no duplication, and with a shadowing `int x` in `Child` the run
still completes with exactly one `x` (the child's). -/
theorem c2_merge_child_then_parent :
    (∀ (classes : ClassCollection) (store : Store),
      (mergePass classes store).isOk = true) ∧
    resErr baseChildRun = none ∧
    fieldNames baseChildStore baseClass = [str "x"] ∧
    fieldNames baseChildStore childClass = [str "y", str "x"] ∧
    resErr shadowRun = none ∧
    fieldNames (resStore shadowRun) shadowChild = [str "y", str "x"] := by
  refine ⟨mergePass_isOk, ?_⟩
  decide

/-- C1 (code bug): `Class.instantiate` rebuilds the field collection
once per substituted parameter pair, inside the substitution loop.  With
two substituted parameters (`P<T, U>` instantiated as `P<int,float>`)
every field is added twice and the run aborts with the duplicate-field
error; with zero substituted parameters (`Box<T>` "instantiated" as
`Box<T>`) the new class has an empty field collection even though the
generic has one field. -/
theorem c1_instantiate_rebuilds_per_substitution :
    resErr (genericP.instantiate (str "int,float") genericPStore) =
      some (.fatal (str "Tried to add a field that already exists: x")) ∧
    resErr boxSelfInst = none ∧
    (boxStore.get boxClass.fieldsRef).fields.length = 1 ∧
    (boxSelfInstStore.get boxSelfInstClass.fieldsRef).fields = [] ∧
    boxSelfInstClass.id.identifier = str "Box<T>" ∧
    boxSelfInstClass.id.templdecl = some (str "typename T") := by
  decide

/-- C8 counterexample: in `nsAliasCode`, `struct A` is declared before
the `namespace foo {` header, yet its emitted record (and the promoted
class) carries `["foo"]` as its namespace list: the records share the
single namespace accumulator, so headers appearing after the declaration
do show up. -/
theorem c8_counterexample :
    resErr (runParse nsAliasCode false PState.empty) = none ∧
    nsAliasRecA.id.identifier = str "A" ∧
    nsAliasRecA.namespaces = [str "foo"] ∧
    nsAliasRecA.namespaces ≠ ([] : List PyStr) ∧
    (resClasses (runParse nsAliasCode false PState.empty)).map (·.namespaces) =
      [[str "foo"], [str "foo"]] := by
  decide

/-- C8 amended: every record emitted by the scanner carries, as its
namespace list, the namespaces accumulated over the *entire* input — the
records all reference the scanner's single accumulator list (extended on
each `namespace X::Y {` header, never popped), so namespace headers
after an entity's declaration appear in its recorded list too. -/
theorem c8_namespaces_shared_accumulator (macros : ControlMacros)
    (code lineDelm : PyStr) (infos : ClassInfoCollection) (finalNs : List PyStr)
    (h : findEntities macros code lineDelm = .ok (infos, finalNs)) :
    ∀ ci ∈ infos.classes, ci.namespaces = finalNs := by
  unfold findEntities at h
  cases hr : findEntitiesRaw macros code lineDelm with
  | error e => rw [hr] at h; exact absurd h (by simp [Except.map])
  | ok st =>
    rw [hr] at h
    simp only [Except.map, Except.ok.injEq, Prod.mk.injEq] at h
    obtain ⟨hinfos, hns⟩ := h
    intro ci hci
    rw [← hinfos] at hci
    simp only [List.mem_map] at hci
    obtain ⟨ci0, -, rfl⟩ := hci
    simpa using hns

/-- Witness for C8 amended, at the concrete scan of `nsAliasCode`. -/
theorem c8_namespaces_shared_accumulator_witness :
    nsAliasRecA.namespaces = [str "foo"] :=
  c8_namespaces_shared_accumulator stdMacros (preprocess (str nsAliasCode))
    (str "\n") nsAliasInfos [str "foo"] (by decide) nsAliasRecA (by decide)

/-- C5 (code bug): the identifier-to-`Class` cache lives on the parser
instance and `parse` never clears it.  The first parse of `cacheCode`
succeeds; its merge pass copies `P`'s field `v` into the cached generic
`G<T, U>`.  The second parse of the identical input on the same instance
re-instantiates `G<int,float>` from that mutated cached generic, and the
per-substituted-parameter field rebuild now aborts with a duplicate-field
error — the two runs do not yield structurally equal collections. -/
theorem c5_cache_persists_across_parse_calls :
    resErr cacheRun1 = none ∧
    (resClasses cacheRun1).map (·.id.identifier) =
      [str "P", str "G<T, U>", str "C"] ∧
    fieldNames (resStore cacheRun1) ((resClasses cacheRun1).getD 1 default) =
      [str "v"] ∧
    resErr cacheRun2 =
      some (.fatal (str "Tried to add a field that already exists: v")) := by
  decide

/-- C10: the group-end branch of `check_group_macros` pops the innermost
open group unconditionally.  (a) Whenever the first body line of an
entity contains the group-end macro and not the group-begin macro (so no
group can be open yet), field extraction dies with an uncaught
`IndexError` from `groups.pop()`, not with a parser diagnostic; (b) the
pop is safe exactly under the precondition that at least one group is
open: with a nonempty stack `check_group_macros` never raises
`IndexError`; (c) the whole run over `groupEndCode` ends in the
`IndexError`. -/
theorem c10_group_end_pops_unconditionally :
    (∀ (macros : ControlMacros) (reserved : List PyStr) (clinfo : ClassInfo)
        (parents : List Class) (store : Store) (line : PyStr) (rest : List PyStr),
        clinfo.id.ctype = str "struct" →
        clinfo.body = line :: rest →
        containsSub macros.group.end_ (pyStrip line) = true →
        containsSub macros.group.begin (pyStrip line) = false →
        createClass macros reserved clinfo parents ClassCollection.empty store =
          .error .indexError) ∧
    (∀ (macros : ControlMacros) (reserved : List PyStr) (line : PyStr)
        (groups : List Group), groups ≠ [] →
        checkGroupMacros macros reserved line groups ≠ .error .indexError) ∧
    resErr (runParse groupEndCode false PState.empty) = some .indexError := by
  refine ⟨?_, ?_, by decide⟩
  · intro macros reserved clinfo parents store line rest hty hbody hend hbeg
    have hwalk : walkLine macros reserved
        ⟨[], 0, false, str "public", ⟨[]⟩⟩ line = .error .indexError := by
      unfold walkLine checkGroupMacros
      simp only [hend, hbeg, Bool.false_eq_true, if_false, if_true]
      rfl
    unfold createClass
    simp only [hty, hbody]
    rw [if_neg (by decide)]
    have hcache : ClassCollection.empty.perIdentifier? clinfo.id.identifier = none := rfl
    rw [hcache]
    have hvis : (if str "struct" = str "class" then str "private" else str "public")
        = str "public" := by decide
    rw [hvis]
    have hfold : pyFoldM (line :: rest) (⟨[], 0, false, str "public", ⟨[]⟩⟩ : WalkSt)
        (walkLine macros reserved) = .error .indexError := by
      unfold pyFoldM
      rw [List.foldlM_cons, hwalk]
      rfl
    rw [hfold]
    rfl
  · intro macros reserved line groups hne
    unfold checkGroupMacros
    by_cases hb : containsSub macros.group.begin line
    · simp only [hb, if_true]
      cases matchMacroArgs macros.group.begin line with
      | none => simp
      | some g1 =>
        simp only
        cases pySplitSub (str ",")
            (pyReplace (str ", ") (str ",") (pyReplace (str "\"") (str "") g1)) with
        | nil => simp
        | cons name props =>
          by_cases h1 : name = ([] : PyStr)
          · simp [h1]
          · by_cases h2 : name ∈ reserved <;> simp [h1, h2]
    · simp only [hb, if_false]
      by_cases he : containsSub macros.group.end_ line
      · simp only [he, if_true]
        cases groups with
        | nil => exact absurd rfl hne
        | cons g gs => simp
      · simp [he]

/-- Witness for C10 at a concrete entity whose body opens with a
`GROUP_END()` line, and at a concrete nonempty group stack. -/
theorem c10_group_end_pops_unconditionally_witness :
    createClass stdMacros []
      ⟨⟨str "W", str "W", str "struct", none, []⟩, none, [],
       [str "GROUP_END()", str "int x;"], [str "W"], true⟩
      [] ClassCollection.empty [] = .error .indexError ∧
    checkGroupMacros stdMacros [] (str "int x;") [⟨str "Net", []⟩] ≠
      .error .indexError :=
  ⟨c10_group_end_pops_unconditionally.1 stdMacros []
      ⟨⟨str "W", str "W", str "struct", none, []⟩, none, [],
       [str "GROUP_END()", str "int x;"], [str "W"], true⟩
      [] [] (str "GROUP_END()") [str "int x;"] rfl rfl (by decide) (by decide),
   c10_group_end_pops_unconditionally.2.1 stdMacros [] (str "int x;")
      [⟨str "Net", []⟩] (by decide)⟩

/-- In the mutual recursion `A<T> : B<T>`, `B<T> : A<T>`, the parent
resolution of either entity with any fuel runs out of fuel: each level
consumes one unit and recurses into the other entity with the same
cache and store (nothing is cached before the recursive call, so the
recursion never bottoms out). -/
theorem cycleParents_diverge : ∀ f : Nat,
    parseClassF stdMacros [] false cycleInfos f cycleInfoA true
      ClassCollection.empty [] = .error .outOfFuel ∧
    parseClassF stdMacros [] false cycleInfos f cycleInfoB true
      ClassCollection.empty [] = .error .outOfFuel := by
  intro f
  induction f with
  | zero => exact ⟨rfl, rfl⟩
  | succ f ih =>
    constructor
    · show Except.bind (Except.bind (Except.bind
        (parseClassF stdMacros [] false cycleInfos f cycleInfoB true
          ClassCollection.empty []) _) _) _ = Except.error Err.outOfFuel
      rw [ih.2]
      rfl
    · show Except.bind (Except.bind (Except.bind
        (parseClassF stdMacros [] false cycleInfos f cycleInfoA true
          ClassCollection.empty []) _) _) _ = Except.error Err.outOfFuel
      rw [ih.1]
      rfl

/-- The top-level promotion of `A<T>` (no override flag) diverges the
same way. -/
theorem cycleTopCall_diverges : ∀ fuel : Nat,
    parseClassF stdMacros [] false cycleInfos fuel cycleInfoA false
      ClassCollection.empty [] = .error .outOfFuel := by
  intro fuel
  cases fuel with
  | zero => rfl
  | succ f =>
    show Except.bind (Except.bind (Except.bind
      (parseClassF stdMacros [] false cycleInfos f cycleInfoB true
        ClassCollection.empty []) _) _) _ = Except.error Err.outOfFuel
    rw [(cycleParents_diverge f).2]
    rfl

/-- C3 (code bug): on the cyclic parent chain `A<T> : B<T>`,
`B<T> : A<T>`, parent resolution recurses forever — for every recursion
budget the run ends in the out-of-fuel marker (Python: an eventual
uncaught `RecursionError`), never in a CycleDetected diagnostic.  The
source's `parse_class` keeps no visited set: each level passes the
unchanged cache and store to the next, as the statement's fixed
`ClassCollection.empty`/`[]` states exhibit. -/
theorem c3_cycle_unbounded_recursion : ∀ fuel : Nat,
    resErr (runParseF fuel cycleCode false PState.empty) = some .outOfFuel := by
  intro fuel
  cases fuel with
  | zero => decide
  | succ f =>
    show resErr (Except.bind (Except.bind (Except.bind
      (parseClassF stdMacros [] false cycleInfos (f + 1) cycleInfoA false
        ClassCollection.empty []) _) _) _) = some Err.outOfFuel
    rw [cycleTopCall_diverges (f + 1)]
    rfl

/-- Propagation of an error through a bind. -/
theorem res_bind_error {α β : Type} (e : Err) (k : α → Res β) :
    (Except.error e >>= k : Res β) = .error e := rfl

/-- C7: `template_arguments_instantiation_pairs` succeeds only when the
argument count equals the generic's parameter count — any successful
pair list has equal lengths, and a successful `instantiate` implies its
pair computation succeeded with equal lengths.  Instantiating the
`Box<T>` of the parsed example with the two arguments `int,float` is a
fatal ArityMismatch, both at the pair computation and through
`instantiate`. -/
theorem c7_instantiation_arity_checked :
    (∀ (i : Identifier) (targs : PyStr) (p : List PyStr × List PyStr),
        i.templatePairs targs = .ok p → p.1.length = p.2.length) ∧
    (∀ (c : Class) (targs : PyStr) (store : Store) (r : Class × Store),
        c.instantiate targs store = .ok r →
        ∃ p : List PyStr × List PyStr,
          c.id.templatePairs targs = .ok p ∧ p.1.length = p.2.length) ∧
    resErr (boxClass.id.templatePairs (str "int,float")) =
      some (.fatal (str "The amount of template arguments between the class declaration to instantiate and the ones to instantiate does not match.")) ∧
    resErr (boxClass.instantiate (str "int,float") boxStore) =
      some (.fatal (str "The amount of template arguments between the class declaration to instantiate and the ones to instantiate does not match.")) := by
  have key : ∀ (i : Identifier) (targs : PyStr) (p : List PyStr × List PyStr),
      i.templatePairs targs = .ok p → p.1.length = p.2.length := by
    intro i targs p h
    unfold Identifier.templatePairs at h
    split at h
    · simp at h
    · dsimp only at h
      split at h
      · simp at h
      · rename_i hlen
        cases h
        exact Decidable.not_not.mp hlen
  refine ⟨key, ?_, by decide, by decide⟩
  intro c targs store r h
  unfold Class.instantiate at h
  split at h
  · simp at h
  · cases hp : c.id.templatePairs targs with
    | error e =>
      rw [hp, res_bind_error] at h
      exact absurd h (by simp)
    | ok p => exact ⟨p, rfl, key _ _ _ hp⟩

/-- Witness for C7: the one-parameter `Box<T>` with the single argument
`int` passes the arity check with equal counts. -/
theorem c7_instantiation_arity_checked_witness :
    ([str "T"], [str "int"]).1.length = ([str "T"], [str "int"]).2.length :=
  c7_instantiation_arity_checked.1 boxClass.id (str "int")
    ([str "T"], [str "int"]) (by decide)

end CPP
